import Mathlib

/-!
Shallow embedding of the submission controller in `src/static/script.js`.

The script installs a single asynchronous submit handler on the form
`gemini-form`.  The handler:
  * calls `e.preventDefault()`;
  * captures the form content with `new FormData(form)`;
  * enters the busy state (`submitBtn.disabled = true`, removes the
    `hidden` class from the loading indicator, writes an in-flight
    placeholder message in black);
  * `fetch('/api/process_query', { method: 'POST', body: formData })`
    without an explicit Content-Type header;
  * `await response.json()`;
  * if `response.ok` writes `result.response` to the output, otherwise
    writes an `ERREUR (status): detail-or-fallback` message in red;
  * on any thrown error (transport failure or JSON parse failure) logs
    the error and writes a fixed connection-failure message in red;
  * in `finally` re-enables the button and re-hides the indicator.

We model one invocation of the handler as the list of primitive effects
(`Step`) it performs, parameterised by the captured form data and by the
outcome of the network call, and give those effects a semantics on a
`UIState` record.  Nondeterminism of the environment (response status,
body, transport failure) is the `FetchOutcome` parameter.
-/

/-- Observable UI state touched by the handler: the submit button's
`disabled` flag, whether the loading indicator carries the `hidden`
class, and the output element's `textContent` and `style.color`. -/
structure UIState where
  submitDisabled : Bool
  loadingHidden : Bool
  outputText : String
  outputColor : String
  deriving DecidableEq, Repr

/-- JSON body as read by the script: only the `response` and `detail`
fields are ever accessed; each may be absent (JS `undefined`). -/
structure JsonBody where
  response : Option String
  detail : Option String
  deriving DecidableEq, Repr

/-- A received HTTP response: its status code, and the result of
`response.json()` (which throws on a malformed body, modelled by
`Except.error ()`). -/
structure FetchResponse where
  status : Nat
  body : Except Unit JsonBody
  deriving Repr

/-- Outcome of the `fetch` call: `Except.error ()` when the promise
rejects before a response is received (transport failure), otherwise the
response. -/
abbrev FetchOutcome := Except Unit FetchResponse

/-- Captured form content (`new FormData(form)`): named fields whose
values are text or file bytes, both abstracted as strings. -/
abbrev FormData := List (String × String)

/-- WHATWG `Response.ok`: status in the inclusive range 200..299. -/
def respOk (r : FetchResponse) : Bool :=
  decide (200 ≤ r.status ∧ r.status < 300)

/-- JS assignment of a possibly-undefined value to `textContent`.
`Node.textContent` is a nullable DOMString, so WebIDL converts an
ECMAScript `undefined` on the right-hand side to IDL `null`, and the
textContent setter treats `null` as the empty string: a missing field
clears the output rather than displaying the text "undefined". -/
def jsText : Option String → String
  | some s => s
  | none => ""

/-- JS `a || b` on a possibly-undefined string: the fallback is used when
the field is absent or is the empty string (both falsy). -/
def jsOr : Option String → String → String
  | some d, fb => if d = "" then fb else d
  | none, fb => fb

/-- Placeholder written while the request is in flight. -/
def inFlightMsg : String := "Mandefa ny fangatahana any amin\x27ny FastAPI..."

/-- Fixed connection-failure message written by the catch block. -/
def connFailMsg : String :=
  "Erreur de connexion: Tsy tafiditra tamin\x27ny serveur backend FastAPI."

/-- Generic fallback used when the error body carries no `detail`. -/
def unknownErrMsg : String := "Erreur inconnue du serveur."

/-- Structured error text: `ERREUR (status): detail-or-fallback`. -/
def errText (status : Nat) (detail : Option String) : String :=
  "ERREUR (" ++ toString status ++ "): " ++ jsOr detail unknownErrMsg

/-- Primitive effects performed by the handler, in program order. -/
inductive Step where
  | preventDefault : Step
  | setDisabled : Bool → Step
  | setLoadingHidden : Bool → Step
  | setText : String → Step
  | setColor : String → Step
  | sendRequest : String → String → FormData → Option String → Step
  | logError : Step
  deriving DecidableEq, Repr

/-- The sequence of effects of one invocation of the submit handler,
given the captured form data and the environment's fetch outcome.
Mirrors `src/static/script.js` line by line: busy entry, the POST,
`response.json()`, the `response.ok` branch, the catch block, and the
finally block. -/
def submitSteps (fd : FormData) (outcome : FetchOutcome) : List Step :=
  [Step.preventDefault,
   Step.setDisabled true,
   Step.setLoadingHidden false,
   Step.setText inFlightMsg,
   Step.setColor "black",
   Step.sendRequest "/api/process_query" "POST" fd none] ++
  (match outcome with
   | Except.error _ =>
       [Step.logError, Step.setText connFailMsg, Step.setColor "red"]
   | Except.ok r =>
       match r.body with
       | Except.error _ =>
           [Step.logError, Step.setText connFailMsg, Step.setColor "red"]
       | Except.ok j =>
           if respOk r then
             [Step.setText (jsText j.response)]
           else
             [Step.setText (errText r.status j.detail), Step.setColor "red"]) ++
  [Step.setDisabled false, Step.setLoadingHidden true]

/-- Effect of a single step on the UI state. -/
def applyStep (s : UIState) : Step → UIState
  | Step.preventDefault => s
  | Step.setDisabled b => { s with submitDisabled := b }
  | Step.setLoadingHidden b => { s with loadingHidden := b }
  | Step.setText t => { s with outputText := t }
  | Step.setColor c => { s with outputColor := c }
  | Step.sendRequest _ _ _ _ => s
  | Step.logError => s

/-- Run a list of steps from an initial UI state. -/
def runSteps (init : UIState) (steps : List Step) : UIState :=
  steps.foldl applyStep init

/-- Final UI state after one invocation of the handler settles. -/
def submitFinal (init : UIState) (fd : FormData) (outcome : FetchOutcome) : UIState :=
  runSteps init (submitSteps fd outcome)

/-- Every intermediate UI state of one invocation, starting with the
initial state and recording the state after each step. -/
def uiTrace (init : UIState) (fd : FormData) (outcome : FetchOutcome) : List UIState :=
  (submitSteps fd outcome).scanl applyStep init

/-- Projection of a UI state onto its busy-relevant flags:
(submit control disabled?, loading indicator hidden?). -/
def busyFlags (s : UIState) : Bool × Bool :=
  (s.submitDisabled, s.loadingHidden)

/-- Text the handler leaves in the output, as a function of the fetch
outcome: the parsed body's `response` field on a 2xx response, the
structured error text on a non-2xx response with parseable body, and the
fixed connection-failure message on transport or parse failure. -/
def outcomeText (outcome : FetchOutcome) : String :=
  match outcome with
  | Except.error _ => connFailMsg
  | Except.ok r =>
      match r.body with
      | Except.error _ => connFailMsg
      | Except.ok j =>
          if respOk r then jsText j.response else errText r.status j.detail

/-- Recognises the `setText` effects of a step list. -/
def isSetText : Step → Bool
  | Step.setText _ => true
  | _ => false

/-- Recognises the `submitBtn.disabled` writes of a step list. -/
def isSetDisabled : Step → Bool
  | Step.setDisabled _ => true
  | _ => false

/-- Recognises the loading-indicator class toggles of a step list. -/
def isSetLoadingHidden : Step → Bool
  | Step.setLoadingHidden _ => true
  | _ => false

/-- Recognises the network-request effect of a step list. -/
def isSendRequest : Step → Bool
  | Step.sendRequest _ _ _ _ => true
  | _ => false

/-- Recognises the diagnostic `console.error` effect of a step list. -/
def isLogError : Step → Bool
  | Step.logError => true
  | _ => false

/-- Recognises the `preventDefault` effect of a step list. -/
def isPreventDefault : Step → Bool
  | Step.preventDefault => true
  | _ => false

/-- Decides whether `p` is a leading segment of `l`. -/
def strStarts : List Char → List Char → Bool
  | [], _ => true
  | _ :: _, [] => false
  | a :: p, b :: l => a == b && strStarts p l

/-- Decides whether `p` occurs as a contiguous segment of `l`. -/
def strOccurs (p l : List Char) : Bool :=
  match l with
  | [] => strStarts p []
  | _ :: t => strStarts p l || strOccurs p t

/-- Decides whether the string `sub` occurs inside the string `hay`. -/
def strContains (hay sub : String) : Bool := strOccurs sub.data hay.data

/-- The error body's `detail` field when present, the generic fallback
phrase otherwise (the presence-based reading, as opposed to the
truthiness-based `jsOr`). -/
def detOrFallback : Option String → String
  | some d => d
  | none => unknownErrMsg

/-! Helper lemmas about the string-containment machinery. -/

theorem strStarts_append (p r : List Char) : strStarts p (p ++ r) = true := by
  induction p with
  | nil => rfl
  | cons a t ih => simp [strStarts, ih]

theorem strOccurs_of_starts {p l : List Char} (h : strStarts p l = true) :
    strOccurs p l = true := by
  cases l with
  | nil => exact h
  | cons a t => simp [strOccurs, h]

theorem strOccurs_append_left (l : List Char) {p m : List Char}
    (h : strOccurs p m = true) : strOccurs p (l ++ m) = true := by
  induction l with
  | nil => exact h
  | cons a t ih => simp [strOccurs, ih]

theorem strOccurs_mid (l p r : List Char) : strOccurs p (l ++ (p ++ r)) = true :=
  strOccurs_append_left l (strOccurs_of_starts (strStarts_append p r))

theorem strOccurs_nil (l : List Char) : strOccurs [] l = true := by
  cases l with
  | nil => rfl
  | cons a t => simp [strOccurs, strStarts]

theorem strData_append (s t : String) : (s ++ t).data = s.data ++ t.data := rfl

/-- The structured error text never coincides with the fixed
connection-failure message: the former starts with `ER`, the latter with
`Er`. -/
theorem errText_ne_connFail (status : Nat) (detail : Option String) :
    errText status detail ≠ connFailMsg := by
  intro h
  have h2 : (errText status detail).data.take 2 = connFailMsg.data.take 2 := by rw [h]
  have hl : (errText status detail).data.take 2 = ['E', 'R'] := by
    have hd : (errText status detail).data
        = 'E' :: 'R' :: ("REUR (".data
            ++ (toString status ++ "): " ++ jsOr detail unknownErrMsg).data) := by
      simp [errText, strData_append]
    rw [hd]
    rfl
  have hr : connFailMsg.data.take 2 = ['E', 'r'] := rfl
  rw [hl, hr] at h2
  exact absurd h2 (by decide)

/-- The error text decomposes around the status code digits. -/
theorem errText_data (status : Nat) (detail : Option String) :
    (errText status detail).data
      = "ERREUR (".data ++ ((toString status).data
          ++ (("): " : String).data ++ (jsOr detail unknownErrMsg).data)) := by
  simp [errText, strData_append, List.append_assoc]

/-- The error text decomposes with the detail-or-fallback as a suffix. -/
theorem errText_data_suffix (status : Nat) (detail : Option String) :
    (errText status detail).data
      = ("ERREUR (" ++ toString status ++ "): ").data
          ++ ((jsOr detail unknownErrMsg).data ++ []) := by
  simp [errText, strData_append, List.append_assoc]

/-- Claim C1: for every outcome of `submit()` — success, application
error (non-2xx), or transport error/exception — after it settles the
submit button is re-enabled and the loading indicator is hidden, and the
restore writes (`submitBtn.disabled = false` and re-adding the `hidden`
class) each execute exactly once per submission, unconditionally: the
only `disabled` writes in any trace are the busy-entry `true` and the
finally-block `false`, and likewise for the indicator. -/
theorem submit_restores (init : UIState) (fd : FormData) (outcome : FetchOutcome) :
    (submitFinal init fd outcome).submitDisabled = false ∧
    (submitFinal init fd outcome).loadingHidden = true ∧
    (submitSteps fd outcome).filter isSetDisabled
      = [Step.setDisabled true, Step.setDisabled false] ∧
    (submitSteps fd outcome).filter isSetLoadingHidden
      = [Step.setLoadingHidden false, Step.setLoadingHidden true] := by
  rcases outcome with u | ⟨status, body⟩
  · exact ⟨rfl, rfl, rfl, rfl⟩
  · rcases body with u | j
    · exact ⟨rfl, rfl, rfl, rfl⟩
    · by_cases h : respOk ⟨status, Except.ok j⟩ = true
      · simp only [submitFinal, runSteps, submitSteps, h, if_true]
        exact ⟨rfl, rfl, rfl, rfl⟩
      · simp only [Bool.not_eq_true] at h
        simp only [submitFinal, runSteps, submitSteps, h]
        exact ⟨rfl, rfl, rfl, rfl⟩

/-- Claim C2, counterexample: the claim asserts the output never shows
the initial "request in flight" placeholder after settlement, but the
success branch writes the server-supplied `response` string verbatim, so
a 200 response whose `response` field happens to equal the placeholder
text leaves exactly the placeholder text displayed at settlement. -/
theorem submit_placeholder_can_survive :
    (submitFinal ⟨false, true, "", "black"⟩ []
      (Except.ok ⟨200, Except.ok ⟨some inFlightMsg, none⟩⟩)).outputText
      = inFlightMsg := rfl

/-- Claim C2 (amended): after any single invocation settles, the output
text equals the outcome-determined text — exactly one of the success
text, the structured error text, or the fixed connection-failure text,
according to the branch taken — and the trace performs exactly two
output writes: the placeholder first, then exactly one outcome write, so
the placeholder write never survives to settlement (its text can only
reappear if the server returns it as the `response` field). -/
theorem submit_exclusive_outcome (init : UIState) (fd : FormData)
    (outcome : FetchOutcome) :
    (submitFinal init fd outcome).outputText = outcomeText outcome ∧
    (submitSteps fd outcome).filter isSetText
      = [Step.setText inFlightMsg, Step.setText (outcomeText outcome)] := by
  rcases outcome with u | ⟨status, body⟩
  · exact ⟨rfl, rfl⟩
  · rcases body with u | j
    · exact ⟨rfl, rfl⟩
    · by_cases h : respOk ⟨status, Except.ok j⟩ = true
      · simp only [submitFinal, runSteps, submitSteps, outcomeText, h, if_true]
        exact ⟨rfl, rfl⟩
      · simp only [Bool.not_eq_true] at h
        simp only [submitFinal, runSteps, submitSteps, outcomeText, h]
        exact ⟨rfl, rfl⟩

/-- Claim C3: starting from the default non-busy state, the busy flags
along the trace are: non-busy before the trigger and after
`preventDefault`; the two busy-entry writes; then disabled-and-visible
for every state from busy-entry completion (before the request is even
sent) through the whole in-flight window and all outcome writes; and
only the two final finally-block writes restore the default non-busy
state, on every exit path.  The pair records (submit control disabled?,
loading indicator hidden?); `(true, false)` is the busy state and
`(false, true)` the default. -/
theorem submit_busy_window (t c : String) (fd : FormData) (outcome : FetchOutcome) :
    List.map busyFlags (uiTrace ⟨false, true, t, c⟩ fd outcome) =
      [(false, true), (false, true), (true, true)] ++
      List.replicate ((uiTrace ⟨false, true, t, c⟩ fd outcome).length - 5) (true, false) ++
      [(false, false), (false, true)] := by
  rcases outcome with u | ⟨status, body⟩
  · rfl
  · rcases body with u | j
    · rfl
    · by_cases h : respOk ⟨status, Except.ok j⟩ = true
      · simp only [uiTrace, submitSteps, h, if_true]
        rfl
      · simp only [Bool.not_eq_true] at h
        simp only [uiTrace, submitSteps, h]
        rfl

/-- Claim C4: for every response with status in the success range whose
parsed body carries a `response` field, the handler sets the output text
to that field and leaves the output color at the neutral black written
on busy entry. -/
theorem submit_success_mapping (init : UIState) (fd : FormData) (status : Nat)
    (s : String) (detail : Option String)
    (h1 : 200 ≤ status) (h2 : status < 300) :
    (submitFinal init fd (Except.ok ⟨status, Except.ok ⟨some s, detail⟩⟩)).outputText
      = s ∧
    (submitFinal init fd (Except.ok ⟨status, Except.ok ⟨some s, detail⟩⟩)).outputColor
      = "black" := by
  have hok : respOk ⟨status, Except.ok ⟨some s, detail⟩⟩ = true := by
    simp only [respOk, decide_eq_true_eq]
    exact ⟨h1, h2⟩
  simp only [submitFinal, runSteps, submitSteps, hok, if_true]
  exact ⟨rfl, rfl⟩

/-- Witness for C4 at the spec's own example: status 200 with body
`{"response":"OK-42"}` yields output text `OK-42` and color black. -/
theorem submit_success_mapping_w :
    (submitFinal ⟨false, true, "", "black"⟩ []
      (Except.ok ⟨200, Except.ok ⟨some "OK-42", none⟩⟩)).outputText = "OK-42" ∧
    (submitFinal ⟨false, true, "", "black"⟩ []
      (Except.ok ⟨200, Except.ok ⟨some "OK-42", none⟩⟩)).outputColor = "black" :=
  submit_success_mapping ⟨false, true, "", "black"⟩ [] 200 "OK-42" none
    (by decide) (by decide)

/-- Claim C5: for every response with status outside the success range
and a parseable JSON body, the output text is the structured error
string `ERREUR (status): ...`; it contains the decimal status code and
the body's `detail` field when present (trivially so for an empty
detail, which JS `||` replaces by the fallback), otherwise the generic
fallback phrase; and the output color is set to red. -/
theorem submit_error_mapping (init : UIState) (fd : FormData) (status : Nat)
    (resp detail : Option String)
    (h : ¬(200 ≤ status ∧ status < 300)) :
    (submitFinal init fd (Except.ok ⟨status, Except.ok ⟨resp, detail⟩⟩)).outputText
      = errText status detail ∧
    (submitFinal init fd (Except.ok ⟨status, Except.ok ⟨resp, detail⟩⟩)).outputColor
      = "red" ∧
    strContains (errText status detail) (toString status) = true ∧
    strContains (errText status detail) (detOrFallback detail) = true := by
  have hok : respOk ⟨status, Except.ok ⟨resp, detail⟩⟩ = false := by
    simp only [respOk, decide_eq_false_iff_not]
    exact h
  refine ⟨?_, ?_, ?_, ?_⟩
  · simp only [submitFinal, runSteps, submitSteps, hok]
    rfl
  · simp only [submitFinal, runSteps, submitSteps, hok]
    rfl
  · simp only [strContains, errText_data status detail]
    exact strOccurs_mid _ _ _
  · rcases detail with _ | d
    · simp only [strContains, detOrFallback, errText_data_suffix status none]
      exact strOccurs_mid _ _ _
    · by_cases hd : d = ""
      · subst hd
        simp only [strContains, detOrFallback]
        exact strOccurs_nil _
      · simp only [strContains, detOrFallback, errText_data_suffix status (some d),
          jsOr, if_neg hd]
        exact strOccurs_mid _ _ _

/-- Witness for C5 at the spec's own examples: status 422 with detail
`Invalid file type`, and status 500 with an empty body. -/
theorem submit_error_mapping_w :
    ((submitFinal ⟨false, true, "", "black"⟩ []
        (Except.ok ⟨422, Except.ok ⟨none, some "Invalid file type"⟩⟩)).outputText
        = errText 422 (some "Invalid file type") ∧
      (submitFinal ⟨false, true, "", "black"⟩ []
        (Except.ok ⟨422, Except.ok ⟨none, some "Invalid file type"⟩⟩)).outputColor
        = "red" ∧
      strContains (errText 422 (some "Invalid file type")) (toString 422) = true ∧
      strContains (errText 422 (some "Invalid file type"))
        (detOrFallback (some "Invalid file type")) = true) ∧
    ((submitFinal ⟨false, true, "", "black"⟩ []
        (Except.ok ⟨500, Except.ok ⟨none, none⟩⟩)).outputText
        = errText 500 none ∧
      (submitFinal ⟨false, true, "", "black"⟩ []
        (Except.ok ⟨500, Except.ok ⟨none, none⟩⟩)).outputColor = "red" ∧
      strContains (errText 500 none) (toString 500) = true ∧
      strContains (errText 500 none) (detOrFallback none) = true) :=
  ⟨submit_error_mapping ⟨false, true, "", "black"⟩ [] 422 none
      (some "Invalid file type") (by decide),
    submit_error_mapping ⟨false, true, "", "black"⟩ [] 500 none none (by decide)⟩

/-- Claim C6: if the fetch promise rejects before any response is
received, the output text is the fixed connection-failure message, the
output color is red, and the busy state is still cleared at settlement
(submit control re-enabled, loading indicator hidden). -/
theorem submit_transport_failure (init : UIState) (fd : FormData) :
    (submitFinal init fd (Except.error ())).outputText = connFailMsg ∧
    (submitFinal init fd (Except.error ())).outputColor = "red" ∧
    (submitFinal init fd (Except.error ())).submitDisabled = false ∧
    (submitFinal init fd (Except.error ())).loadingHidden = true :=
  ⟨rfl, rfl, rfl, rfl⟩

/-- Claim C7: when `response.json()` fails — a response of any status,
2xx or not, whose body is not valid JSON — the catch block runs: the
output text is the fixed connection-failure message, the color is red,
and exactly one diagnostic `console.error` record is emitted; the
structured status-code error text is never shown, because it differs
from the connection-failure message for every status and detail. -/
theorem submit_parse_failure (init : UIState) (fd : FormData) (status : Nat) :
    (submitFinal init fd (Except.ok ⟨status, Except.error ()⟩)).outputText
      = connFailMsg ∧
    (submitFinal init fd (Except.ok ⟨status, Except.error ()⟩)).outputColor
      = "red" ∧
    (submitSteps fd (Except.ok ⟨status, Except.error ()⟩)).filter isLogError
      = [Step.logError] ∧
    (∀ d : Option String, errText status d ≠ connFailMsg) :=
  ⟨rfl, rfl, rfl, fun d => errText_ne_connFail status d⟩

/-- Claim C8: the handler's very first act, before any other processing,
is suppressing the browser's default form-submission navigation, and it
does so exactly once. -/
theorem submit_prevents_default (fd : FormData) (outcome : FetchOutcome) :
    (submitSteps fd outcome).head? = some Step.preventDefault ∧
    (submitSteps fd outcome).filter isPreventDefault = [Step.preventDefault] := by
  rcases outcome with u | ⟨status, body⟩
  · exact ⟨rfl, rfl⟩
  · rcases body with u | j
    · exact ⟨rfl, rfl⟩
    · by_cases h : respOk ⟨status, Except.ok j⟩ = true
      · simp only [submitSteps, h, if_true]
        exact ⟨rfl, rfl⟩
      · simp only [Bool.not_eq_true] at h
        simp only [submitSteps, h]
        exact ⟨rfl, rfl⟩

/-- Claim C9: every invocation issues exactly one request, a POST to the
fixed path `/api/process_query`, carrying exactly the form data captured
at call time as the multipart body, with no explicit Content-Type
header. -/
theorem submit_single_post (fd : FormData) (outcome : FetchOutcome) :
    (submitSteps fd outcome).filter isSendRequest
      = [Step.sendRequest "/api/process_query" "POST" fd none] := by
  rcases outcome with u | ⟨status, body⟩
  · rfl
  · rcases body with u | j
    · rfl
    · by_cases h : respOk ⟨status, Except.ok j⟩ = true
      · simp only [submitSteps, h, if_true]
        rfl
      · simp only [Bool.not_eq_true] at h
        simp only [submitSteps, h]
        rfl

/-- Claim C10, counterexample: the claim asserts a 2xx response with no
`response` field leaves the text "undefined" in the output, but
`textContent` is a nullable DOMString, so the assigned `undefined` is
converted to `null` and the setter writes the empty string: at the
concrete input 200 with body `{}` the settled output text is the empty
string and in particular is not "undefined". -/
theorem submit_missing_response_not_undefined :
    (submitFinal ⟨false, true, "", "black"⟩ []
      (Except.ok ⟨200, Except.ok ⟨none, none⟩⟩)).outputText = "" ∧
    (submitFinal ⟨false, true, "", "black"⟩ []
      (Except.ok ⟨200, Except.ok ⟨none, none⟩⟩)).outputText ≠ "undefined" :=
  ⟨rfl, by decide⟩

/-- Claim C10 (amended): for a success-range response whose JSON body
lacks the `response` field, the undefined property is assigned to
`textContent` unguarded; WebIDL's nullable-DOMString conversion turns
it into `null` and the setter into the empty string, so the output is
cleared at settlement, with the color left at the neutral black. -/
theorem submit_missing_response_field (init : UIState) (fd : FormData)
    (status : Nat) (detail : Option String)
    (h1 : 200 ≤ status) (h2 : status < 300) :
    (submitFinal init fd (Except.ok ⟨status, Except.ok ⟨none, detail⟩⟩)).outputText
      = "" ∧
    (submitFinal init fd (Except.ok ⟨status, Except.ok ⟨none, detail⟩⟩)).outputColor
      = "black" := by
  have hok : respOk ⟨status, Except.ok ⟨none, detail⟩⟩ = true := by
    simp only [respOk, decide_eq_true_eq]
    exact ⟨h1, h2⟩
  simp only [submitFinal, runSteps, submitSteps, hok, if_true]
  exact ⟨rfl, rfl⟩

/-- Witness for the amended C10: a 200 response with body `{}` leaves an
empty output and a black color. -/
theorem submit_missing_response_field_w :
    (submitFinal ⟨false, true, "", "black"⟩ []
      (Except.ok ⟨200, Except.ok ⟨none, none⟩⟩)).outputText = "" ∧
    (submitFinal ⟨false, true, "", "black"⟩ []
      (Except.ok ⟨200, Except.ok ⟨none, none⟩⟩)).outputColor = "black" :=
  submit_missing_response_field ⟨false, true, "", "black"⟩ [] 200 none
    (by decide) (by decide)
